import Mathlib

/-!
Verification of the wheel-strategy portfolio manager (`wheel_strategy.py`).

Shallow embedding conventions:
* Python `float` values are modelled as `ℚ`; a field that can be `None` or
  `NaN` in Python is modelled as `Option ℚ` with `none` standing for both
  (every quote-validity test in the source rejects `None` and `NaN` alike).
* Python truthiness of a float (`if delta`) is `≠ 0` on the `some` case and
  false on `none`.
* The broker connection is abstracted away: each function takes the data it
  reads from the connection (account summary values, position size, ticker
  fields, per-contract observations) as explicit arguments.
* A per-contract lookup that raises an exception is modelled as an
  `Except.error` element of the scanned list.
-/

namespace WheelStrategy

/-- `PortfolioBalance` dataclass (`wheel_strategy.py` lines 19-42). -/
structure PortfolioBalance where
  cash_value : ℚ
  equity_value : ℚ
  total_value : ℚ
  equity_ratio : ℚ
  cash_ratio : ℚ
  imbalance_ratio : ℚ
deriving Repr, DecidableEq

/-- `PortfolioBalance.is_cash_heavy`: equity ratio below 40%. -/
def PortfolioBalance.is_cash_heavy (b : PortfolioBalance) : Prop :=
  b.equity_ratio < 0.40

/-- `PortfolioBalance.is_equity_heavy`: equity ratio above 60%. -/
def PortfolioBalance.is_equity_heavy (b : PortfolioBalance) : Prop :=
  b.equity_ratio > 0.60

/-- `PortfolioBalance.is_balanced`: equity ratio in [40%, 60%]. -/
def PortfolioBalance.is_balanced (b : PortfolioBalance) : Prop :=
  0.40 ≤ b.equity_ratio ∧ b.equity_ratio ≤ 0.60

instance (b : PortfolioBalance) : Decidable b.is_cash_heavy := by
  unfold PortfolioBalance.is_cash_heavy; infer_instance

instance (b : PortfolioBalance) : Decidable b.is_equity_heavy := by
  unfold PortfolioBalance.is_equity_heavy; infer_instance

instance (b : PortfolioBalance) : Decidable b.is_balanced := by
  unfold PortfolioBalance.is_balanced; infer_instance

/-- `DeltaTargets` dataclass (lines 44-58). -/
structure DeltaTargets where
  put_delta_min : ℚ
  put_delta_max : ℚ
  call_delta_min : ℚ
  call_delta_max : ℚ
deriving Repr, DecidableEq

/-- `DeltaTargets.get_put_target_delta`: midpoint of the put range. -/
def DeltaTargets.get_put_target_delta (t : DeltaTargets) : ℚ :=
  (t.put_delta_min + t.put_delta_max) / 2

/-- `DeltaTargets.get_call_target_delta`: midpoint of the call range. -/
def DeltaTargets.get_call_target_delta (t : DeltaTargets) : ℚ :=
  (t.call_delta_min + t.call_delta_max) / 2

/-- `WheelStrategy.assess_portfolio_balance` (lines 202-250), with the
    account-summary values (`cash_value`, `total_value`), the stock position
    size (`equity_shares`) and the current stock price taken as explicit
    inputs in place of the broker queries. -/
def assess_portfolio_balance (cash_value total_value equity_shares
    current_price : ℚ) : PortfolioBalance :=
  let equity_value := equity_shares * current_price
  let equity_ratio := if total_value > 0 then equity_value / total_value else 0
  let cash_ratio := if total_value > 0 then cash_value / total_value else 1
  let target_equity_ratio : ℚ := 0.5
  let imbalance_ratio := (equity_ratio - target_equity_ratio) * 2
  { cash_value := cash_value
    equity_value := equity_value
    total_value := total_value
    equity_ratio := equity_ratio
    cash_ratio := cash_ratio
    imbalance_ratio := imbalance_ratio }

/-- `WheelStrategy.calculate_delta_targets` (lines 252-292). -/
def calculate_delta_targets (balance : PortfolioBalance) : DeltaTargets :=
  let base_put_delta : ℚ := 0.20
  let base_call_delta : ℚ := 0.20
  let aggressiveness := |balance.imbalance_ratio|
  let put_delta_target :=
    if balance.is_cash_heavy then base_put_delta + aggressiveness * 0.15
    else if balance.is_equity_heavy then
      base_put_delta + (-aggressiveness * 0.05)
    else base_put_delta
  let call_delta_target :=
    if balance.is_cash_heavy then base_call_delta + (-aggressiveness * 0.05)
    else if balance.is_equity_heavy then
      base_call_delta + aggressiveness * 0.15
    else base_call_delta
  let delta_range : ℚ := 0.05
  { put_delta_min := max 0.10 (put_delta_target - delta_range)
    put_delta_max := min 0.45 (put_delta_target + delta_range)
    call_delta_min := max 0.10 (call_delta_target - delta_range)
    call_delta_max := min 0.45 (call_delta_target + delta_range) }

/-- Fields of a stock `Ticker` used by `get_current_stock_price`
    (lines 178-200).  `none` models a `None` or `NaN` field. -/
structure StockTicker where
  last : Option ℚ
  close : Option ℚ
  bid : Option ℚ
  ask : Option ℚ
deriving Repr, DecidableEq

/-- Validity test applied to each price source: the field is present
    (truthy, non-`NaN`) and strictly positive — e.g.
    `ticker.last and not math.isnan(ticker.last) and ticker.last > 0`. -/
def priceValid (o : Option ℚ) : Bool :=
  match o with
  | some x => decide (0 < x)
  | none => false

/-- `WheelStrategy.get_current_stock_price` (lines 178-200): try last,
    then close, then bid/ask midpoint, else the `$10.00` fallback. -/
def get_current_stock_price (t : StockTicker) : ℚ :=
  if priceValid t.last then t.last.getD 0
  else if priceValid t.close then t.close.getD 0
  else if priceValid t.bid && priceValid t.ask then
    (t.bid.getD 0 + t.ask.getD 0) / 2
  else 10

/-- Per-contract observation returned by the market-data lookup in
    `get_put_recommendations` (lines 393-426): option ticker fields plus
    the contract strike.  `delta := none` models a missing
    `ticker.modelGreeks`; otherwise it holds `abs(modelGreeks.delta)`. -/
structure TickerData where
  strike : ℚ
  bid : Option ℚ
  ask : Option ℚ
  last : Option ℚ
  delta : Option ℚ
deriving Repr, DecidableEq

/-- One entry of the returned recommendation list (lines 458-471),
    restricted to its numeric fields. -/
structure Candidate where
  strike : ℚ
  delta : ℚ
  bid : ℚ
  ask : ℚ
  mid_price : ℚ
  premium_income : ℚ
  cash_required : ℚ
deriving Repr, DecidableEq

/-- Estimated spread when live quotes are missing (line 409):
    `max(0.01, estimated_mid * 0.1)`. -/
def estimated_spread (last : ℚ) : ℚ :=
  max 0.01 (last * 0.1)

/-- Estimated bid (line 410): `estimated_mid - estimated_spread/2`. -/
def estimated_bid (last : ℚ) : ℚ :=
  last - estimated_spread last / 2

/-- Estimated ask (line 411): `estimated_mid + estimated_spread/2`. -/
def estimated_ask (last : ℚ) : ℚ :=
  last + estimated_spread last / 2

/-- The effective bid/ask pair used for a contract (lines 399-417): the
    live quotes when both are valid, otherwise the pair estimated from a
    valid last price, otherwise no price data (`continue`). -/
def effQuote (t : TickerData) : Option (ℚ × ℚ) :=
  if priceValid t.bid && priceValid t.ask then
    some (t.bid.getD 0, t.ask.getD 0)
  else if priceValid t.last then
    some (estimated_bid (t.last.getD 0), estimated_ask (t.last.getD 0))
  else none

/-- The inclusion test of lines 435-441, with Python float truthiness:
    `if delta and delta >= 0.05: include / elif not delta: include`.
    A present delta equal to `0.0` is falsy, so it reaches the
    `elif not delta` branch and is included. -/
def shouldInclude (delta : Option ℚ) : Bool :=
  match delta with
  | some d => if d ≠ 0 ∧ 0.05 ≤ d then true else decide (d = 0)
  | none => true

/-- Processing of a single contract inside the scan loop (lines 393-471):
    resolve a bid/ask pair, reject an inverted spread, apply the inclusion
    test, and build the recommendation entry.  (The `isnan` re-check on
    `mid_price` at line 454 cannot fire over `ℚ`.) -/
def processContract (t : TickerData) : Option Candidate :=
  match effQuote t with
  | none => none
  | some (b, a) =>
    if a < b then none
    else if shouldInclude t.delta then
      some { strike := t.strike
             delta := t.delta.getD 0
             bid := b
             ask := a
             mid_price := (b + a) / 2
             premium_income := (b + a) / 2 * 100
             cash_required := t.strike * 100 }
    else none

/-- The scan loop of lines 367-482, flattened over the
    expiration × strike iteration order.  `Except.error ()` models a
    contract whose qualification or market-data lookup raised (the
    `except: continue` at lines 475-476); `count` is the number of
    recommendations accumulated so far, and the loop stops once it
    reaches `max_contracts` (the two `break` checks at lines 478-482). -/
def collectRecs (max_contracts count : Nat) :
    List (Except Unit TickerData) → List Candidate
  | [] => []
  | x :: xs =>
    match x with
    | .error _ => collectRecs max_contracts count xs
    | .ok t =>
      match processContract t with
      | none => collectRecs max_contracts count xs
      | some c =>
        if max_contracts ≤ count + 1 then [c]
        else c :: collectRecs max_contracts (count + 1) xs

/-- Boolean comparison used to model `recommendations.sort(key=...)`
    (line 486): ascending distance of the entry's delta from the put
    target midpoint. -/
def deltaDistLe (target_delta : ℚ) (x y : Candidate) : Bool :=
  decide (|x.delta - target_delta| ≤ |y.delta - target_delta|)

/-- `WheelStrategy.get_put_recommendations` (lines 313-488), with the
    per-contract observations for the scanned (expiration, strike) pairs
    supplied as a list: collect accepted candidates, sort by distance from
    the put target delta, truncate to `max_contracts`. -/
def get_put_recommendations (targets : DeltaTargets) (max_contracts : Nat)
    (scanned : List (Except Unit TickerData)) : List Candidate :=
  ((collectRecs max_contracts 0 scanned).mergeSort
    (deltaDistLe targets.get_put_target_delta)).take max_contracts

/-! ## Theorems -/

/-- Both clamped endpoints land in `[0.10, 0.45]` whenever the branch
    target lies in `[0.15, 0.35]`. -/
lemma clamped_range_subset {t : ℚ} (h1 : (0.15 : ℚ) ≤ t) (h2 : t ≤ 0.35) :
    (0.10 : ℚ) ≤ max 0.10 (t - 0.05) ∧ max (0.10 : ℚ) (t - 0.05) ≤ 0.45 ∧
    (0.10 : ℚ) ≤ min 0.45 (t + 0.05) ∧ min (0.45 : ℚ) (t + 0.05) ≤ 0.45 :=
  ⟨le_max_left _ _, max_le (by norm_num) (by linarith),
   le_min (by norm_num) (by linarith), min_le_left _ _⟩

/-- C1 (amended): for every `PortfolioBalance` whose `imbalance_ratio` lies
    in `[-1, 1]` — as is the case for every balance the assessor derives
    from an equity ratio in `[0, 1]` — all four fields of the
    `DeltaTargets` returned by `calculate_delta_targets` lie in
    `[0.10, 0.45]`. -/
theorem claim1_delta_targets_in_range (b : PortfolioBalance)
    (h : |b.imbalance_ratio| ≤ 1) :
    ((0.10 : ℚ) ≤ (calculate_delta_targets b).put_delta_min ∧
      (calculate_delta_targets b).put_delta_min ≤ 0.45) ∧
    ((0.10 : ℚ) ≤ (calculate_delta_targets b).put_delta_max ∧
      (calculate_delta_targets b).put_delta_max ≤ 0.45) ∧
    ((0.10 : ℚ) ≤ (calculate_delta_targets b).call_delta_min ∧
      (calculate_delta_targets b).call_delta_min ≤ 0.45) ∧
    ((0.10 : ℚ) ≤ (calculate_delta_targets b).call_delta_max ∧
      (calculate_delta_targets b).call_delta_max ≤ 0.45) := by
  have ha0 : (0 : ℚ) ≤ |b.imbalance_ratio| := abs_nonneg _
  have ha15 : |b.imbalance_ratio| * 0.15 ≤ 0.15 := by nlinarith
  have ha15p : (0 : ℚ) ≤ |b.imbalance_ratio| * 0.15 := by positivity
  have ha05 : |b.imbalance_ratio| * 0.05 ≤ 0.05 := by nlinarith
  have ha05p : (0 : ℚ) ≤ |b.imbalance_ratio| * 0.05 := by positivity
  simp only [calculate_delta_targets]
  by_cases hc : b.is_cash_heavy <;> by_cases he : b.is_equity_heavy <;>
    simp only [hc, he, if_true, if_false]
  all_goals {
    first
    | exact
        have h1 := clamped_range_subset (t := 0.20 + |b.imbalance_ratio| * 0.15)
          (by linarith) (by linarith)
        have h2 := clamped_range_subset
          (t := 0.20 + -|b.imbalance_ratio| * 0.05) (by linarith) (by linarith)
        ⟨⟨h1.1, h1.2.1⟩, ⟨h1.2.2.1, h1.2.2.2⟩,
         ⟨h2.1, h2.2.1⟩, ⟨h2.2.2.1, h2.2.2.2⟩⟩
    | exact
        have h1 := clamped_range_subset
          (t := 0.20 + -|b.imbalance_ratio| * 0.05) (by linarith) (by linarith)
        have h2 := clamped_range_subset (t := 0.20 + |b.imbalance_ratio| * 0.15)
          (by linarith) (by linarith)
        ⟨⟨h1.1, h1.2.1⟩, ⟨h1.2.2.1, h1.2.2.2⟩,
         ⟨h2.1, h2.2.1⟩, ⟨h2.2.2.1, h2.2.2.2⟩⟩
    | exact
        have h1 := clamped_range_subset (t := (0.20 : ℚ)) (by norm_num)
          (by norm_num)
        ⟨⟨h1.1, h1.2.1⟩, ⟨h1.2.2.1, h1.2.2.2⟩,
         ⟨h1.1, h1.2.1⟩, ⟨h1.2.2.1, h1.2.2.2⟩⟩
  }

/-- C1 witness: the concrete maximally cash-heavy balance from the
    assessor satisfies the hypothesis and the bounds. -/
theorem claim1_delta_targets_in_range_witness :
    ((0.10 : ℚ) ≤
        (calculate_delta_targets
          (assess_portfolio_balance 50000 50000 0 10)).put_delta_min ∧
      (calculate_delta_targets
        (assess_portfolio_balance 50000 50000 0 10)).put_delta_min ≤ 0.45) ∧
    ((0.10 : ℚ) ≤
        (calculate_delta_targets
          (assess_portfolio_balance 50000 50000 0 10)).put_delta_max ∧
      (calculate_delta_targets
        (assess_portfolio_balance 50000 50000 0 10)).put_delta_max ≤ 0.45) ∧
    ((0.10 : ℚ) ≤
        (calculate_delta_targets
          (assess_portfolio_balance 50000 50000 0 10)).call_delta_min ∧
      (calculate_delta_targets
        (assess_portfolio_balance 50000 50000 0 10)).call_delta_min ≤ 0.45) ∧
    ((0.10 : ℚ) ≤
        (calculate_delta_targets
          (assess_portfolio_balance 50000 50000 0 10)).call_delta_max ∧
      (calculate_delta_targets
        (assess_portfolio_balance 50000 50000 0 10)).call_delta_max ≤ 0.45) :=
  claim1_delta_targets_in_range (assess_portfolio_balance 50000 50000 0 10)
    (by norm_num [assess_portfolio_balance])

/-- C1 counterexample: `calculate_delta_targets` applied to the balance
    the assessor produces for a leveraged account (cash −100000, net
    liquidation 50000, 20000 shares at $10, hence `imbalance_ratio = 7`)
    returns `call_delta_min = 1.20 > 0.45`: the claim is false for
    arbitrary `PortfolioBalance` inputs. -/
theorem claim1_counterexample :
    ¬ ((calculate_delta_targets
          (assess_portfolio_balance (-100000) 50000 20000 10)).call_delta_min
        ≤ 0.45) := by
  norm_num [calculate_delta_targets, assess_portfolio_balance,
    PortfolioBalance.is_cash_heavy, PortfolioBalance.is_equity_heavy]

/-- C2 (amended): whenever `total_value > 0` and the equity value
    (share count × current price) lies between `0` and the total value,
    the assessed balance has `equity_ratio ∈ [0, 1]` and
    `imbalance_ratio ∈ [-1, 1]`; the identity
    `imbalance_ratio = (equity_ratio − 0.5) × 2` holds for every
    assessment with positive total, without the extra hypotheses. -/
theorem claim2_ratios_in_range (cash_value total_value equity_shares
    current_price : ℚ) (hpos : 0 < total_value) :
    (0 ≤ equity_shares * current_price →
      equity_shares * current_price ≤ total_value →
      (0 ≤ (assess_portfolio_balance cash_value total_value equity_shares
          current_price).equity_ratio ∧
        (assess_portfolio_balance cash_value total_value equity_shares
          current_price).equity_ratio ≤ 1) ∧
      (-1 ≤ (assess_portfolio_balance cash_value total_value equity_shares
          current_price).imbalance_ratio ∧
        (assess_portfolio_balance cash_value total_value equity_shares
          current_price).imbalance_ratio ≤ 1)) ∧
    (assess_portfolio_balance cash_value total_value equity_shares
        current_price).imbalance_ratio =
      ((assess_portfolio_balance cash_value total_value equity_shares
          current_price).equity_ratio - 0.5) * 2 := by
  simp only [assess_portfolio_balance, if_pos hpos]
  refine ⟨?_, trivial⟩
  intro hev0 hevt
  have h0 : 0 ≤ equity_shares * current_price / total_value :=
    div_nonneg hev0 (le_of_lt hpos)
  have h1 : equity_shares * current_price / total_value ≤ 1 :=
    (div_le_one hpos).mpr hevt
  exact ⟨⟨h0, h1⟩, ⟨by linarith, by linarith⟩⟩

/-- C2 witness: a half-invested $50000 account, with the range
    hypotheses discharged there as well. -/
theorem claim2_ratios_in_range_witness :
    (0 ≤ (assess_portfolio_balance 25000 50000 2500 10).equity_ratio ∧
      (assess_portfolio_balance 25000 50000 2500 10).equity_ratio ≤ 1) ∧
    (-1 ≤ (assess_portfolio_balance 25000 50000 2500 10).imbalance_ratio ∧
      (assess_portfolio_balance 25000 50000 2500 10).imbalance_ratio ≤ 1) ∧
    (assess_portfolio_balance 25000 50000 2500 10).imbalance_ratio =
      ((assess_portfolio_balance 25000 50000 2500 10).equity_ratio - 0.5)
        * 2 :=
  ⟨(claim2_ratios_in_range 25000 50000 2500 10 (by norm_num)).1
      (by norm_num) (by norm_num) |>.1,
   (claim2_ratios_in_range 25000 50000 2500 10 (by norm_num)).1
      (by norm_num) (by norm_num) |>.2,
   (claim2_ratios_in_range 25000 50000 2500 10 (by norm_num)).2⟩

/-- C2 counterexample: a leveraged account (cash −50000, net liquidation
    50000, 10000 shares at $10) has positive total value but
    `equity_ratio = 2 ∉ [0, 1]`: the code never clamps the ratio. -/
theorem claim2_counterexample :
    (0 : ℚ) < (assess_portfolio_balance (-50000) 50000 10000 10).total_value ∧
    ¬ ((assess_portfolio_balance (-50000) 50000 10000 10).equity_ratio
        ≤ 1) := by
  norm_num [assess_portfolio_balance]

/-- C3 (amended): whenever `total_value > 0` and the account is
    consistent — cash value plus equity value (share count × current
    price) equals total value — the assessed ratios satisfy
    `equity_ratio + cash_ratio = 1`.  The code reads cash, total and the
    position from independent broker queries and does not itself enforce
    this consistency. -/
theorem claim3_ratios_sum_one (cash_value total_value equity_shares
    current_price : ℚ) (hpos : 0 < total_value)
    (hsum : cash_value + equity_shares * current_price = total_value) :
    (assess_portfolio_balance cash_value total_value equity_shares
        current_price).equity_ratio +
      (assess_portfolio_balance cash_value total_value equity_shares
        current_price).cash_ratio = 1 := by
  simp only [assess_portfolio_balance, if_pos hpos]
  rw [div_add_div_same, add_comm, hsum, div_self (ne_of_gt hpos)]

/-- C3 witness: a consistent half-invested $50000 account. -/
theorem claim3_ratios_sum_one_witness :
    (assess_portfolio_balance 25000 50000 2500 10).equity_ratio +
      (assess_portfolio_balance 25000 50000 2500 10).cash_ratio = 1 :=
  claim3_ratios_sum_one 25000 50000 2500 10 (by norm_num) (by norm_num)

/-- C3 counterexample: with cash 0, total 100 and no position the total
    is positive but `equity_ratio + cash_ratio = 0 ≠ 1` — the three
    broker-supplied inputs are independent, so nothing forces the ratios
    to sum to 1. -/
theorem claim3_counterexample :
    (0 : ℚ) < (assess_portfolio_balance 0 100 0 10).total_value ∧
    ¬ ((assess_portfolio_balance 0 100 0 10).equity_ratio +
        (assess_portfolio_balance 0 100 0 10).cash_ratio = 1) := by
  norm_num [assess_portfolio_balance]

/-- C6: with `total_value = 0` the assessor returns `equity_ratio = 0`,
    `cash_ratio = 1`, the balance is classified cash-heavy, and
    `imbalance_ratio = -1` (maximally cash-heavy). -/
theorem claim6_zero_total_cash_heavy (cash_value equity_shares
    current_price : ℚ) :
    (assess_portfolio_balance cash_value 0 equity_shares
        current_price).equity_ratio = 0 ∧
    (assess_portfolio_balance cash_value 0 equity_shares
        current_price).cash_ratio = 1 ∧
    (assess_portfolio_balance cash_value 0 equity_shares
        current_price).is_cash_heavy ∧
    (assess_portfolio_balance cash_value 0 equity_shares
        current_price).imbalance_ratio = -1 := by
  norm_num [assess_portfolio_balance, PortfolioBalance.is_cash_heavy]

/-- C7: a balance with `equity_ratio = 0` and `imbalance_ratio = -1`
    (which the assessor pairs together) yields a put target midpoint of
    0.35 and a call target midpoint of 0.15. -/
theorem claim7_extreme_cash_heavy_targets (b : PortfolioBalance)
    (her : b.equity_ratio = 0) (him : b.imbalance_ratio = -1) :
    (calculate_delta_targets b).get_put_target_delta = 0.35 ∧
    (calculate_delta_targets b).get_call_target_delta = 0.15 := by
  have hc : b.is_cash_heavy := by
    unfold PortfolioBalance.is_cash_heavy; rw [her]; norm_num
  norm_num [calculate_delta_targets, DeltaTargets.get_put_target_delta,
    DeltaTargets.get_call_target_delta, hc, him]

/-- C7 witness: the spec's worked example, cash 50000 and total 50000
    with no shares. -/
theorem claim7_extreme_cash_heavy_targets_witness :
    (calculate_delta_targets
        (assess_portfolio_balance 50000 50000 0 10)).get_put_target_delta
      = 0.35 ∧
    (calculate_delta_targets
        (assess_portfolio_balance 50000 50000 0 10)).get_call_target_delta
      = 0.15 :=
  claim7_extreme_cash_heavy_targets (assess_portfolio_balance 50000 50000 0 10)
    (by norm_num [assess_portfolio_balance])
    (by norm_num [assess_portfolio_balance])

/-- C10: `get_current_stock_price` tries last, then close, then bid/ask
    midpoint, each source accepted only when present (non-`NaN`) and
    strictly positive, and returns exactly `10.0` when all three are
    invalid. -/
theorem claim10_price_source_order (t : StockTicker) :
    (∀ l, t.last = some l → 0 < l → get_current_stock_price t = l) ∧
    (priceValid t.last = false →
      ∀ c, t.close = some c → 0 < c → get_current_stock_price t = c) ∧
    (priceValid t.last = false → priceValid t.close = false →
      ∀ b a, t.bid = some b → t.ask = some a → 0 < b → 0 < a →
        get_current_stock_price t = (b + a) / 2) ∧
    (priceValid t.last = false → priceValid t.close = false →
      (priceValid t.bid && priceValid t.ask) = false →
      get_current_stock_price t = 10) := by
  refine ⟨?_, ?_, ?_, ?_⟩
  · intro l hl hlp
    have hv : priceValid (some l) = true := by
      simp [priceValid, hlp]
    simp [get_current_stock_price, hl, hv]
  · intro hlast c hc hcp
    have hv : priceValid (some c) = true := by
      simp [priceValid, hcp]
    simp [get_current_stock_price, hlast, hc, hv]
  · intro hlast hclose b a hb ha hbp hap
    have hvb : priceValid (some b) = true := by
      simp [priceValid, hbp]
    have hva : priceValid (some a) = true := by
      simp [priceValid, hap]
    simp [get_current_stock_price, hlast, hclose, hb, ha, hvb, hva]
  · intro hlast hclose hba
    simp [get_current_stock_price, hlast, hclose, hba]

/-- C10 witness: a ticker with no valid source at all falls back to 10. -/
theorem claim10_price_source_order_witness :
    get_current_stock_price ⟨none, none, none, none⟩ = 10 :=
  (claim10_price_source_order ⟨none, none, none, none⟩).2.2.2 rfl rfl rfl

/-- C8: when the live bid/ask pair is not valid but a positive last trade
    price exists, the scan uses the estimated quotes: the spread is
    `max(0.01, 0.10 × last)`, the bid is `last − spread/2`, the ask is
    `last + spread/2`, and their midpoint is exactly the last price. -/
theorem claim8_estimated_quotes (t : TickerData) (l : ℚ)
    (hq : (priceValid t.bid && priceValid t.ask) = false)
    (hl : t.last = some l) (hlp : 0 < l) :
    effQuote t = some (estimated_bid l, estimated_ask l) ∧
    estimated_spread l = max 0.01 (0.10 * l) ∧
    estimated_bid l = l - estimated_spread l / 2 ∧
    estimated_ask l = l + estimated_spread l / 2 ∧
    (estimated_bid l + estimated_ask l) / 2 = l := by
  have hv : priceValid (some l) = true := by simp [priceValid, hlp]
  refine ⟨?_, ?_, rfl, rfl, ?_⟩
  · simp [effQuote, hq, hl, hv]
  · rw [estimated_spread, mul_comm]; norm_num
  · rw [estimated_bid, estimated_ask]; ring

/-- C8 witness: an option ticker with no quotes and a last price of $2. -/
theorem claim8_estimated_quotes_witness :
    effQuote ⟨10, none, none, some 2, none⟩ =
      some (estimated_bid 2, estimated_ask 2) ∧
    estimated_spread 2 = max 0.01 (0.10 * 2) ∧
    estimated_bid 2 = 2 - estimated_spread 2 / 2 ∧
    estimated_ask 2 = 2 + estimated_spread 2 / 2 ∧
    (estimated_bid 2 + estimated_ask 2) / 2 = 2 :=
  claim8_estimated_quotes ⟨10, none, none, some 2, none⟩ 2 rfl rfl
    (by norm_num)

/-- C4: every recommendation list returned by `get_put_recommendations`
    is sorted in ascending order of the distance of its recorded delta
    from the put target midpoint, and never holds more than
    `max_contracts` entries. -/
theorem claim4_recommendations_sorted_truncated (targets : DeltaTargets)
    (max_contracts : Nat) (scanned : List (Except Unit TickerData)) :
    (get_put_recommendations targets max_contracts scanned).Pairwise
      (fun x y => |x.delta - targets.get_put_target_delta| ≤
        |y.delta - targets.get_put_target_delta|) ∧
    (get_put_recommendations targets max_contracts scanned).length
      ≤ max_contracts := by
  constructor
  · have hs : ((collectRecs max_contracts 0 scanned).mergeSort
        (deltaDistLe targets.get_put_target_delta)).Pairwise
        (fun x y => deltaDistLe targets.get_put_target_delta x y = true) :=
      List.sorted_mergeSort
        (by intro x y z hxy hyz
            simp only [deltaDistLe, decide_eq_true_eq] at hxy hyz ⊢
            exact le_trans hxy hyz)
        (by intro x y
            simp only [deltaDistLe, Bool.or_eq_true, decide_eq_true_eq]
            exact le_total _ _) _
    have hs2 := hs.imp (S := fun x y =>
        |x.delta - targets.get_put_target_delta| ≤
          |y.delta - targets.get_put_target_delta|)
      (by intro x y h
          simpa only [deltaDistLe, decide_eq_true_eq] using h)
    exact List.Pairwise.sublist (List.take_sublist _ _) hs2
  · exact List.length_take_le _ _

/-- C5 (amended): a scanned contract with a resolved bid/ask pair that is
    not inverted is accepted exactly when its delta is at least 0.05, its
    delta is absent, or its delta is exactly 0 (Python float truthiness
    sends a present `0.0` delta down the `elif not delta` inclusion
    branch); a contract with an inverted spread (ask < bid) is rejected. -/
theorem claim5_acceptance_characterization (t : TickerData) (b a : ℚ)
    (hq : effQuote t = some (b, a)) :
    (¬ a < b →
      ((processContract t).isSome ↔
        t.delta = none ∨ t.delta = some 0 ∨
        ∃ d, t.delta = some d ∧ 0.05 ≤ d)) ∧
    (a < b → processContract t = none) := by
  constructor
  · intro hab
    rw [processContract, hq]
    dsimp only
    rw [if_neg hab]
    cases ht : t.delta with
    | none => simp [shouldInclude]
    | some d =>
      by_cases hd : d = 0
      · subst hd
        simp [shouldInclude]
      · by_cases h05 : (0.05 : ℚ) ≤ d
        · simp only [shouldInclude, hd, h05, and_true, ne_eq,
            not_false_iff, true_and, if_true]
          simp only [Option.isSome_some, true_iff]
          exact Or.inr (Or.inr ⟨d, rfl, h05⟩)
        · have hsi : shouldInclude (some d) = false := by
            simp [shouldInclude, hd, h05]
          simp only [hsi, Bool.false_eq_true, if_false,
            Option.isSome_none, false_iff]
          push_neg
          refine ⟨by simp, by simp [hd], ?_⟩
          intro d2 hd2
          rw [Option.some_inj] at hd2
          subst hd2
          exact not_le.mp h05
  · intro hab
    rw [processContract, hq]
    dsimp only
    rw [if_pos hab]

/-- C5 witness: a contract with quotes (1, 2) and delta 0.36 is
    accepted. -/
theorem claim5_acceptance_characterization_witness :
    (processContract ⟨10, some 1, some 2, none, some 0.36⟩).isSome :=
  ((claim5_acceptance_characterization ⟨10, some 1, some 2, none, some 0.36⟩
      1 2 rfl).1 (by norm_num)).mpr
    (Or.inr (Or.inr ⟨0.36, rfl, by norm_num⟩))

/-- C5 counterexample: a contract with valid quotes (1, 2) and a present
    observed delta of exactly 0 is accepted by the code, although its
    delta is available and smaller than 0.05: the claimed "iff" fails. -/
theorem claim5_counterexample :
    (processContract ⟨10, some 1, some 2, none, some 0⟩).isSome = true ∧
    (⟨10, some 1, some 2, none, some 0⟩ : TickerData).delta = some 0 ∧
    ¬ ((0.05 : ℚ) ≤ 0) := by
  refine ⟨rfl, rfl, by norm_num⟩

/-- A contract whose lookup raised is skipped: removing the
    `Except.error` element from anywhere in the scanned list leaves the
    collected recommendations unchanged, for any accumulated count. -/
lemma collectRecs_skip_error (max_contracts : Nat)
    (xs : List (Except Unit TickerData)) :
    ∀ (count : Nat) (ys : List (Except Unit TickerData)),
      collectRecs max_contracts count (xs ++ Except.error () :: ys) =
        collectRecs max_contracts count (xs ++ ys) := by
  induction xs with
  | nil => intro count ys; rfl
  | cons x xs ih =>
    intro count ys
    cases x with
    | error e => simpa only [List.cons_append, collectRecs] using ih count ys
    | ok t =>
      simp only [List.cons_append, collectRecs]
      cases hpt : processContract t with
      | none => exact ih count ys
      | some c =>
        by_cases hm : max_contracts ≤ count + 1
        · simp [hm]
        · simp [hm, ih (count + 1) ys]

/-- C9: a per-contract failure (modelled as an `Except.error` element of
    the scanned list, the `except: continue` of the source) is skipped
    and scanning continues: the recommendations are exactly those of the
    same scan without the failing contract.  `get_put_recommendations`
    is a total function into lists, so the analysis never fails outright
    because of a single bad contract. -/
theorem claim9_error_contract_skipped (targets : DeltaTargets)
    (max_contracts : Nat) (xs ys : List (Except Unit TickerData)) :
    get_put_recommendations targets max_contracts
        (xs ++ Except.error () :: ys) =
      get_put_recommendations targets max_contracts (xs ++ ys) := by
  unfold get_put_recommendations
  rw [collectRecs_skip_error]

end WheelStrategy
